import Mathlib

/-!
Verification development for the attention/session subsystem of the
Learning_AI repository: a shallow embedding of

  * `rfai/ai/session_manager.py`        (SessionManager)
  * `rfai/ai/block_access_manager.py`   (BlockAccessManager)
  * `rfai/daemons/attention_monitor.py` (AttentionMonitorDaemon)
  * `rfai/daemons/enhanced_focus_detector.py` (EnhancedFocusDetector)

Times are rationals measured in minutes (for sessions) or seconds (for the
classifier daemons); clock readings such as Python's `datetime.now()` become
explicit `now` parameters.  The sqlite database becomes explicit lists of
rows carried in the state.  Scores keep the scales of the source: per-signal
values in [0,1], composite scores in [0,100], session attention averages in
[0,1] for `SessionManager` and in [0,100] for the rows `BlockAccessManager`
reads back from `attention_log`.
-/

namespace RFAI

/-! ## Session manager (`rfai/ai/session_manager.py`) -/

/-- One entry of `current_session['content_shown']`. -/
structure ContentRecord where
  timestamp : ℚ
  contentId : String
  contentType : String
  title : String
  deriving DecidableEq, Repr

/-- One entry of `current_session['attention_scores']`. -/
structure AttentionRecord where
  timestamp : ℚ
  score : ℚ
  state : String
  deriving DecidableEq, Repr

/-- The in-memory `self.current_session` dict built in `start_session`. -/
structure Session where
  id : Nat
  blockName : String
  blockType : String
  goalDurationMinutes : Nat
  attentivenessThreshold : ℚ
  startTime : ℚ
  contentShown : List ContentRecord
  attentionScores : List AttentionRecord
  deriving DecidableEq, Repr

/-- A row of the `time_block_sessions` table (the columns the manager
touches). `endTime = none` is sqlite's `end_time IS NULL`, i.e. a session
that was never ended. -/
structure DbSessionRow where
  id : Nat
  blockName : String
  blockType : String
  startTime : ℚ
  goalDurationMinutes : Nat
  endTime : Option ℚ
  deriving DecidableEq, Repr

/-- A row of the `session_content_log` table. -/
structure ContentLogRow where
  sessionId : Nat
  contentId : String
  contentType : String
  title : String
  deriving DecidableEq, Repr

/-- The whole observable state of a `SessionManager`: the in-memory
`self.current_session` slot plus the database tables it writes. `nextId`
models sqlite's autoincrement rowid (`cursor.lastrowid`). -/
structure SessionManagerState where
  currentSession : Option Session
  nextId : Nat
  dbSessions : List DbSessionRow
  contentLog : List ContentLogRow
  deriving DecidableEq, Repr

/-- Result dict of `start_session`. -/
structure StartResult where
  success : Bool
  sessionId : Option Nat
  deriving DecidableEq, Repr

/-- `SessionManager.start_session` (session_manager.py lines 33-87): inserts
a `time_block_sessions` row, then unconditionally overwrites
`self.current_session` with the fresh session dict and reports success.
There is no check of an existing active session anywhere in the function. -/
def startSession (st : SessionManagerState) (blockName blockType : String)
    (goalDurationMinutes : Nat) (attentivenessThreshold : ℚ) (now : ℚ) :
    SessionManagerState × StartResult :=
  let dbId := st.nextId
  let row : DbSessionRow :=
    ⟨dbId, blockName, blockType, now, goalDurationMinutes, none⟩
  let s : Session :=
    ⟨dbId, blockName, blockType, goalDurationMinutes, attentivenessThreshold,
      now, [], []⟩
  (⟨some s, st.nextId + 1, row :: st.dbSessions, st.contentLog⟩,
    ⟨true, some dbId⟩)

/-- Result dict of `is_session_complete`; `timeMet`/`attentionMet` are
`none` exactly when the key is absent (the "No active session" branch). -/
structure CompletionCheck where
  isComplete : Bool
  timeMet : Option Bool
  attentionMet : Option Bool
  deriving DecidableEq, Repr

/-- `SessionManager.is_session_complete` (session_manager.py lines 93-131):
with no current session it returns `is_complete = False`; otherwise
`is_complete = (elapsed >= goal) and (avg_attention >= threshold)` where
`elapsed = now - start_time` in minutes. -/
def isSessionComplete (st : SessionManagerState) (now avgAttention : ℚ) :
    CompletionCheck :=
  match st.currentSession with
  | none => ⟨false, none, none⟩
  | some s =>
    let elapsed := now - s.startTime
    let timeComplete := decide (elapsed ≥ (s.goalDurationMinutes : ℚ))
    let attentionComplete := decide (avgAttention ≥ s.attentivenessThreshold)
    ⟨timeComplete && attentionComplete, some timeComplete,
      some attentionComplete⟩

/-- `SessionManager.record_content_shown` (session_manager.py lines
133-169): with no current session it returns at once, touching nothing;
otherwise it appends to `current_session['content_shown']` and inserts a
`session_content_log` row. -/
def recordContentShown (st : SessionManagerState)
    (contentId contentType title : String) (now : ℚ) : SessionManagerState :=
  match st.currentSession with
  | none => st
  | some s =>
    let record : ContentRecord := ⟨now, contentId, contentType, title⟩
    let s' := { s with contentShown := s.contentShown ++ [record] }
    { st with
      currentSession := some s'
      contentLog := st.contentLog ++ [⟨s.id, contentId, contentType, title⟩] }

/-- `SessionManager.record_attention_sample` (session_manager.py lines
171-180): with no current session it returns at once, touching nothing;
otherwise it appends to `current_session['attention_scores']` (no database
write at all). -/
def recordAttentionSample (st : SessionManagerState) (score : ℚ)
    (state : String) (now : ℚ) : SessionManagerState :=
  match st.currentSession with
  | none => st
  | some s =>
    { st with
      currentSession :=
        some { s with attentionScores := s.attentionScores ++ [⟨now, score, state⟩] } }

/-! ### Theorems about the session manager -/

/-- C1: for an active session, `is_session_complete` reports
`is_complete = true` iff both `elapsed ≥ goal_duration` and
`avg_attention ≥ threshold`; in particular it is `false` whenever
`elapsed < goal_duration` (regardless of engagement) and `false` whenever
`avg_attention < threshold` (regardless of elapsed time). -/
theorem isSessionComplete_dual (st : SessionManagerState) (now avg : ℚ)
    (s : Session) (h : st.currentSession = some s) :
    ((isSessionComplete st now avg).isComplete = true ↔
      (now - s.startTime ≥ (s.goalDurationMinutes : ℚ) ∧
        avg ≥ s.attentivenessThreshold)) ∧
    (now - s.startTime < (s.goalDurationMinutes : ℚ) →
      (isSessionComplete st now avg).isComplete = false) ∧
    (avg < s.attentivenessThreshold →
      (isSessionComplete st now avg).isComplete = false) := by
  refine ⟨by simp [isSessionComplete, h], ?_, ?_⟩
  · intro hlt
    have hne : ¬ (now - s.startTime ≥ (s.goalDurationMinutes : ℚ)) :=
      not_le.mpr hlt
    simp [isSessionComplete, h, hne]
  · intro hlt
    have hne : ¬ (avg ≥ s.attentivenessThreshold) := not_le.mpr hlt
    simp [isSessionComplete, h, hne]

/-- Witness for C1: a 60-minute science session checked 60 minutes in with
mean attention 0.9 against threshold 0.7 is complete. -/
theorem isSessionComplete_dual_witness :
    (isSessionComplete
      ⟨some ⟨1, "Science Block", "science_youtube_and_papers", 60, 7/10, 0,
        [], []⟩, 2, [], []⟩ 60 (9/10)).isComplete = true :=
  (isSessionComplete_dual _ 60 (9/10) _ rfl).1.mpr (by norm_num)

/-- Counterexample for C2: starting a session while one is active is not
rejected: `start_session` reports success and replaces
`current_session`. -/
theorem startSession_whileActive_succeeds :
    ((startSession
      ⟨some ⟨1, "Science Block", "science_youtube_and_papers", 60, 7/10, 0,
        [], []⟩, 2,
        [⟨1, "Science Block", "science_youtube_and_papers", 0, 60, none⟩],
        []⟩
      "Movie Block" "artistic_movies" 90 (7/10) 30).2.success = true) ∧
    ((startSession
      ⟨some ⟨1, "Science Block", "science_youtube_and_papers", 60, 7/10, 0,
        [], []⟩, 2,
        [⟨1, "Science Block", "science_youtube_and_papers", 0, 60, none⟩],
        []⟩
      "Movie Block" "artistic_movies" 90 (7/10) 30).1.currentSession ≠
      some ⟨1, "Science Block", "science_youtube_and_papers", 60, 7/10, 0,
        [], []⟩) := by
  refine ⟨rfl, ?_⟩
  simp only [startSession, ne_eq, Option.some.injEq, Session.mk.injEq]
  intro hcontra
  exact absurd hcontra.2.1 (by decide)

/-- C2 amended: `start_session` performs no active-session check: for every
starting state it reports success, overwrites `current_session` with the
fresh session, and pushes a new open row onto `time_block_sessions`,
leaving every pre-existing row (in particular a still-open one) exactly as
it was. -/
theorem startSession_always_replaces (st : SessionManagerState)
    (bn bt : String) (gd : Nat) (th now : ℚ) :
    (startSession st bn bt gd th now).2.success = true ∧
    (startSession st bn bt gd th now).1.currentSession =
      some ⟨st.nextId, bn, bt, gd, th, now, [], []⟩ ∧
    (startSession st bn bt gd th now).1.dbSessions =
      ⟨st.nextId, bn, bt, now, gd, none⟩ :: st.dbSessions :=
  ⟨rfl, rfl, rfl⟩

/-- C10: with no active session, `record_attention_sample` and
`record_content_shown` return silently and leave the whole manager state —
`current_session` slot and persisted tables included — unchanged. -/
theorem record_noop_without_session (st : SessionManagerState)
    (h : st.currentSession = none) (cid ct title stateName : String)
    (score now now' : ℚ) :
    recordContentShown st cid ct title now = st ∧
    recordAttentionSample st score stateName now' = st := by
  constructor
  · simp [recordContentShown, h]
  · simp [recordAttentionSample, h]

/-- Witness for C10: both recorders are identities on a concrete state with
no current session. -/
theorem record_noop_without_session_witness :
    recordContentShown ⟨none, 5, [], []⟩ "c1" "papers" "T" 10 =
      (⟨none, 5, [], []⟩ : SessionManagerState) ∧
    recordAttentionSample ⟨none, 5, [], []⟩ (4/5) "FOCUSED" 11 =
      (⟨none, 5, [], []⟩ : SessionManagerState) :=
  record_noop_without_session ⟨none, 5, [], []⟩ rfl "c1" "papers" "T"
    "FOCUSED" (4/5) 10 11

/-! ## Engagement state classifier
(`rfai/daemons/attention_monitor.py` lines 203-227 and
`rfai/daemons/enhanced_focus_detector.py` lines 271-293)

Both daemons carry `self.last_state` / `self.state_duration` and run the
same smoothing code on each tick, differing only in numeric constants.  We
embed the shared step once, parametrized by those constants. -/

/-- The four engagement states both daemons classify into. -/
inductive EngState where
  | FOCUSED
  | ACTIVE
  | DISTRACTED
  | INACTIVE
  deriving DecidableEq, Repr

/-- The numeric constants of one daemon's classifier: the tick interval
`self.interval`, the minimum persistence before a state change (10 in
attention_monitor, 60 in enhanced_focus_detector), the divisor of the
confidence ramp (60 resp. 300), and the three score-band cutoffs. -/
structure ClassifierParams where
  interval : ℚ
  minDwell : ℚ
  confDiv : ℚ
  bandHi : ℚ
  bandMid : ℚ
  bandLo : ℚ
  deriving DecidableEq, Repr

/-- `AttentionMonitorDaemon`: interval 5s, 10s dwell, `/60` confidence
ramp, bands 75/55/30 (attention_monitor.py lines 44, 204-227). -/
def attentionParams : ClassifierParams := ⟨5, 10, 60, 75, 55, 30⟩

/-- `EnhancedFocusDetector`: interval 30s, 60s dwell, `/300` confidence
ramp, bands 75/50/25 (enhanced_focus_detector.py lines 42, 272-293). -/
def focusParams : ClassifierParams := ⟨30, 60, 300, 75, 50, 25⟩

/-- The mutable fields `self.last_state` / `self.state_duration`. -/
structure ClassifierState where
  lastState : EngState
  stateDuration : ℚ
  deriving DecidableEq, Repr

/-- What one tick reports: the updated mutable fields, the committed
`state` put in the returned dict, and the reported `confidence`. -/
structure TickResult where
  next : ClassifierState
  committed : EngState
  confidence : ℚ
  deriving DecidableEq, Repr

/-- The band classification of a composite score (attention_monitor.py
lines 204-211 / enhanced_focus_detector.py lines 272-279). -/
def classifyBand (p : ClassifierParams) (score : ℚ) : EngState :=
  if score ≥ p.bandHi then .FOCUSED
  else if score ≥ p.bandMid then .ACTIVE
  else if score ≥ p.bandLo then .DISTRACTED
  else .INACTIVE

/-- `confidence = min(0.95, 0.5 + state_duration / confDiv)`, computed from
the already-updated duration (attention_monitor.py line 227 /
enhanced_focus_detector.py line 293). -/
def tickConfidence (p : ClassifierParams) (d : ℚ) : ℚ :=
  min (19/20) (1/2 + d / p.confDiv)

/-- One classifier tick on a composite score (attention_monitor.py lines
213-227 / enhanced_focus_detector.py lines 281-293): reset or grow
`state_duration` according to whether the candidate band equals
`last_state`, then keep `last_state` when `state_duration < minDwell and
last_state != "INACTIVE"`, otherwise commit the candidate. -/
def classifierStep (p : ClassifierParams) (st : ClassifierState)
    (score : ℚ) : TickResult :=
  let newState := classifyBand p score
  let d := if newState ≠ st.lastState then 0 else st.stateDuration + p.interval
  if d < p.minDwell ∧ st.lastState ≠ EngState.INACTIVE then
    ⟨⟨st.lastState, d⟩, st.lastState, tickConfidence p d⟩
  else
    ⟨⟨newState, d⟩, newState, tickConfidence p d⟩

/-! ### Theorems about the classifier -/

/-- Helper: the confidence ramp is monotone in the duration. -/
theorem tickConfidence_mono (p : ClassifierParams) (hc : 0 < p.confDiv)
    {a b : ℚ} (h : a ≤ b) : tickConfidence p a ≤ tickConfidence p b := by
  unfold tickConfidence
  gcongr

/-- Helper: score 80 falls in the FOCUSED band of the attention monitor. -/
theorem classifyBand_attention_80 :
    classifyBand attentionParams 80 = .FOCUSED := by
  norm_num [classifyBand, attentionParams]

/-- Helper: score 60 falls in the ACTIVE band of the attention monitor. -/
theorem classifyBand_attention_60 :
    classifyBand attentionParams 60 = .ACTIVE := by
  norm_num [classifyBand, attentionParams]

/-- Counterexample for C3: with the attention monitor's constants, a single
tick whose composite score 80 maps to FOCUSED changes the committed state
out of INACTIVE immediately — the candidate persisted for 0 seconds, less
than the 10-second dwell. -/
theorem classifier_oneTick_outlier_commits :
    (classifierStep attentionParams ⟨.INACTIVE, 0⟩ 80).committed =
      .FOCUSED ∧
    (classifierStep attentionParams ⟨.INACTIVE, 0⟩ 80).next =
      ⟨.FOCUSED, 0⟩ ∧
    (0 : ℚ) < attentionParams.minDwell := by
  refine ⟨?_, ?_, by norm_num [attentionParams]⟩
  · simp only [classifierStep, classifyBand_attention_80]
    norm_num [attentionParams, tickConfidence]
  · simp only [classifierStep, classifyBand_attention_80]
    norm_num [attentionParams, tickConfidence]
    decide

/-- C3 amended: the dwell filter protects every state except INACTIVE —
when `last_state ≠ INACTIVE` and the dwell time is positive, a tick whose
candidate band differs from `last_state` resets the duration to 0 and
commits nothing, so a one-tick outlier never changes a non-INACTIVE
committed state; from INACTIVE the candidate is committed at once. -/
theorem classifier_outlier_keeps_nonInactive (p : ClassifierParams)
    (st : ClassifierState) (score : ℚ) (hdwell : 0 < p.minDwell)
    (hni : st.lastState ≠ .INACTIVE)
    (hout : classifyBand p score ≠ st.lastState) :
    (classifierStep p st score).committed = st.lastState ∧
    (classifierStep p st score).next.lastState = st.lastState := by
  unfold classifierStep
  simp only []
  rw [if_pos hout, if_pos ⟨hdwell, hni⟩]
  exact ⟨rfl, rfl⟩

/-- Witness for the amended C3: a one-tick FOCUSED outlier at score 80 does
not move a committed ACTIVE state. -/
theorem classifier_outlier_keeps_nonInactive_witness :
    (classifierStep attentionParams ⟨.ACTIVE, 0⟩ 80).committed = .ACTIVE ∧
    (classifierStep attentionParams ⟨.ACTIVE, 0⟩ 80).next.lastState =
      .ACTIVE :=
  classifier_outlier_keeps_nonInactive attentionParams ⟨.ACTIVE, 0⟩ 80
    (by norm_num [attentionParams]) (by decide)
    (by rw [classifyBand_attention_80]; decide)

/-- Counterexample for C5: two consecutive attention-monitor ticks during
which the committed state stays ACTIVE, yet the reported confidence falls
from 2/3 to 1/2, because the duration (and hence the confidence ramp)
resets as soon as the raw candidate differs — no committed transition is
needed. -/
theorem classifier_confidence_drops_without_transition :
    (classifierStep attentionParams ⟨.ACTIVE, 5⟩ 60).committed = .ACTIVE ∧
    (classifierStep attentionParams ⟨.ACTIVE, 5⟩ 60).next = ⟨.ACTIVE, 10⟩ ∧
    (classifierStep attentionParams ⟨.ACTIVE, 10⟩ 80).committed = .ACTIVE ∧
    (classifierStep attentionParams ⟨.ACTIVE, 5⟩ 60).confidence = 2/3 ∧
    (classifierStep attentionParams ⟨.ACTIVE, 10⟩ 80).confidence = 1/2 ∧
    ((1 : ℚ)/2) < 2/3 := by
  refine ⟨?_, ?_, ?_, ?_, ?_, by norm_num⟩
  · simp only [classifierStep, classifyBand_attention_60]
    norm_num [attentionParams, tickConfidence, min_def]
  · simp only [classifierStep, classifyBand_attention_60]
    norm_num [attentionParams, tickConfidence, min_def]
  · simp only [classifierStep, classifyBand_attention_80]
    simp [attentionParams]
  · simp only [classifierStep, classifyBand_attention_60]
    norm_num [attentionParams, tickConfidence, min_def]
  · simp only [classifierStep, classifyBand_attention_80]
    simp [attentionParams, tickConfidence]
    norm_num [min_def]

/-- C5 amended: the reported confidence never decreases across consecutive
ticks whose *candidate* band equals the committed state (and such ticks
never change the committed state); but any tick whose candidate differs
from `last_state` resets the confidence to its 1/2 baseline, whether or
not a transition is committed. -/
theorem classifier_confidence_monotone (p : ClassifierParams)
    (st : ClassifierState) (score : ℚ) (hc : 0 < p.confDiv)
    (hi : 0 ≤ p.interval) :
    (classifyBand p score = st.lastState →
      (classifierStep p st score).committed = st.lastState ∧
      tickConfidence p st.stateDuration ≤
        (classifierStep p st score).confidence) ∧
    (classifyBand p score ≠ st.lastState →
      (classifierStep p st score).confidence = 1/2) := by
  constructor
  · intro hmatch
    have hd : (if classifyBand p score ≠ st.lastState then (0:ℚ)
        else st.stateDuration + p.interval) = st.stateDuration + p.interval :=
      if_neg (by simp [hmatch])
    unfold classifierStep
    simp only []
    rw [hd]
    have hmono : tickConfidence p st.stateDuration ≤
        tickConfidence p (st.stateDuration + p.interval) :=
      tickConfidence_mono p hc (by linarith)
    by_cases hcond : st.stateDuration + p.interval < p.minDwell ∧
        st.lastState ≠ EngState.INACTIVE
    · rw [if_pos hcond]
      exact ⟨rfl, hmono⟩
    · rw [if_neg hcond]
      exact ⟨hmatch, hmono⟩
  · intro hout
    have hd : (if classifyBand p score ≠ st.lastState then (0:ℚ)
        else st.stateDuration + p.interval) = 0 := if_pos hout
    unfold classifierStep
    simp only []
    rw [hd]
    have hconf : tickConfidence p 0 = 1/2 := by
      unfold tickConfidence
      rw [zero_div, add_zero, min_eq_right (by norm_num)]
    by_cases hcond : (0:ℚ) < p.minDwell ∧ st.lastState ≠ EngState.INACTIVE
    · rw [if_pos hcond]
      exact hconf
    · rw [if_neg hcond]
      exact hconf

/-- Witness for the amended C5: a tick with candidate ACTIVE on a committed
ACTIVE state keeps the state and does not lower the confidence. -/
theorem classifier_confidence_monotone_witness :
    (classifierStep attentionParams ⟨.ACTIVE, 5⟩ 60).committed = .ACTIVE ∧
    tickConfidence attentionParams 5 ≤
      (classifierStep attentionParams ⟨.ACTIVE, 5⟩ 60).confidence :=
  (classifier_confidence_monotone attentionParams ⟨.ACTIVE, 5⟩ 60
    (by norm_num [attentionParams]) (by norm_num [attentionParams])).1
    classifyBand_attention_60

/-! ## Signal fusion -/

/-- The six signal sources of `EnhancedFocusDetector`. -/
inductive EfdSignal where
  | keyboard
  | mouse
  | window
  | cpu
  | pose
  | gaze
  deriving DecidableEq, Repr

/-- `self.weights` of `EnhancedFocusDetector` (enhanced_focus_detector.py
lines 50-57). -/
def efdWeight : EfdSignal → ℚ
  | .keyboard => 15/100
  | .mouse => 15/100
  | .window => 15/100
  | .cpu => 10/100
  | .pose => 25/100
  | .gaze => 20/100

/-- The fixed iteration order of the `signals` dict keys. -/
def efdSignalKinds : List EfdSignal :=
  [.keyboard, .mouse, .window, .cpu, .pose, .gaze]

/-- The keys actually present in the `signals` dict: a source contributes
only when its capability check passed (enhanced_focus_detector.py lines
242-259); `none` is a source that was skipped. -/
def efdAvailable (signals : EfdSignal → Option ℚ) : List EfdSignal :=
  efdSignalKinds.filter fun k => (signals k).isSome

/-- `total_weight = sum(self.weights.get(k, 0) for k in signals.keys())`
(enhanced_focus_detector.py line 262). -/
def efdTotalWeight (signals : EfdSignal → Option ℚ) : ℚ :=
  ((efdAvailable signals).map efdWeight).sum

/-- The composite score of `EnhancedFocusDetector.compute_focus_score`
(enhanced_focus_detector.py lines 261-269): weighted sum over the present
signals divided by their total weight, `0.5` if no weight is present,
scaled to 0-100. -/
def computeFocusScore (signals : EfdSignal → Option ℚ) : ℚ :=
  (if efdTotalWeight signals > 0 then
    ((efdAvailable signals).map fun k =>
      efdWeight k * (signals k).getD 0).sum / efdTotalWeight signals
  else 1/2) * 100

/-- The six signal sources of `AttentionMonitorDaemon`. -/
inductive AmSignal where
  | camera
  | microphone
  | keyboard
  | mouse
  | window
  | cpu
  deriving DecidableEq, Repr

/-- `self.weights` of `AttentionMonitorDaemon` (attention_monitor.py lines
49-56). -/
def amWeight : AmSignal → ℚ
  | .camera => 30/100
  | .microphone => 15/100
  | .keyboard => 20/100
  | .mouse => 15/100
  | .window => 15/100
  | .cpu => 5/100

/-- The keys of the `signals` dict, which in this daemon are always all
six. -/
def amSignalKinds : List AmSignal :=
  [.camera, .microphone, .keyboard, .mouse, .window, .cpu]

/-- The values put into the `signals` dict (attention_monitor.py lines
163-187): an unavailable camera/microphone/system source is *not dropped*
— it is replaced by the neutral placeholder `0.5`; the window signal is
always taken. `raw` is the value the corresponding `_get_*_signal` call
would return. -/
def amSignalValues (cameraAvailable microphoneAvailable systemAvailable : Bool)
    (raw : AmSignal → ℚ) : AmSignal → ℚ
  | .camera => if cameraAvailable then raw .camera else 1/2
  | .microphone => if microphoneAvailable then raw .microphone else 1/2
  | .keyboard => if systemAvailable then raw .keyboard else 1/2
  | .mouse => if systemAvailable then raw .mouse else 1/2
  | .cpu => if systemAvailable then raw .cpu else 1/2
  | .window => raw .window

/-- The composite score of `AttentionMonitorDaemon.compute_attention_score`
(attention_monitor.py lines 189-196): weighted sum over all six entries
divided by the sum of *all* weights, scaled to 0-100. -/
def computeAttentionScore (signals : AmSignal → ℚ) : ℚ :=
  ((amSignalKinds.map fun k => amWeight k * signals k).sum /
    (amSignalKinds.map amWeight).sum) * 100

/-- Modelled from the spec (§4.1): the contracted fusion for a set of
per-signal inputs — `composite_score` is 100 times the weighted mean of
only the available signals, with weights renormalized to sum to 1 over the
available subset, and the neutral score 50 when no source is available.
Stated over the `AttentionMonitorDaemon` source set for comparison with
`computeAttentionScore`. -/
def specFusedScore (signals : AmSignal → Option ℚ) : ℚ :=
  let avail := amSignalKinds.filter fun k => (signals k).isSome
  let totalWeight := (avail.map amWeight).sum
  if totalWeight > 0 then
    100 * (avail.map fun k => amWeight k / totalWeight * (signals k).getD 0).sum
  else 50

/-! ### Theorems about signal fusion -/

/-- Helper: every `EnhancedFocusDetector` weight is nonnegative. -/
theorem efdWeight_nonneg (k : EfdSignal) : 0 ≤ efdWeight k := by
  cases k <;> norm_num [efdWeight]

/-- Helper: available values stay in [0,1] when all supplied values do. -/
theorem efdAvailable_value_bounds (signals : EfdSignal → Option ℚ)
    (h : ∀ k v, signals k = some v → 0 ≤ v ∧ v ≤ 1) :
    ∀ k ∈ efdAvailable signals,
      0 ≤ (signals k).getD 0 ∧ (signals k).getD 0 ≤ 1 := by
  intro k hk
  have hsome : (signals k).isSome = true := by
    simpa using (List.mem_filter.mp hk).2
  obtain ⟨v, hv⟩ := Option.isSome_iff_exists.mp hsome
  rw [hv]
  simpa using h k v hv

/-- Counterexample for C6: `AttentionMonitorDaemon.compute_attention_score`
does not drop unavailable sources.  With camera and microphone unavailable
and all raw signals equal to 1, the code substitutes the 0.5 placeholder
and still divides by the full weight sum, yielding 77.5, while the spec's
renormalized weighted mean of the available subset yields 100. -/
theorem attentionScore_not_renormalized :
    computeAttentionScore (amSignalValues false false true fun _ => 1) =
      155/2 ∧
    specFusedScore (fun k => match k with
      | .camera => none
      | .microphone => none
      | _ => some 1) = 100 ∧
    (155/2 : ℚ) ≠ 100 := by
  refine ⟨?_, ?_, by norm_num⟩
  · norm_num [computeAttentionScore, amSignalValues, amWeight, amSignalKinds]
  · norm_num [specFusedScore, amWeight, amSignalKinds]

/-- C6 amended: `EnhancedFocusDetector.compute_focus_score` does satisfy
the contract — when some source is available its composite equals 100
times the weighted mean over only the available signals, with the
renormalized weights summing to 1 over the available subset; with no
source available it returns the neutral 50; and its output is in [0,100]
for per-signal inputs in [0,1].  `AttentionMonitorDaemon`'s fusion instead
keeps all six sources (substituting 0.5, see `amSignalValues`), and only
the [0,100] range survives for it. -/
theorem fusion_renormalization :
    (∀ signals : EfdSignal → Option ℚ,
      (0 < efdTotalWeight signals →
        computeFocusScore signals =
          100 * ((efdAvailable signals).map fun k =>
            efdWeight k / efdTotalWeight signals * (signals k).getD 0).sum ∧
        ((efdAvailable signals).map fun k =>
          efdWeight k / efdTotalWeight signals).sum = 1) ∧
      ((∀ k, signals k = none) → computeFocusScore signals = 50) ∧
      ((∀ k v, signals k = some v → 0 ≤ v ∧ v ≤ 1) →
        0 ≤ computeFocusScore signals ∧ computeFocusScore signals ≤ 100)) ∧
    (∀ signals : AmSignal → ℚ,
      (∀ k, 0 ≤ signals k ∧ signals k ≤ 1) →
      0 ≤ computeAttentionScore signals ∧
        computeAttentionScore signals ≤ 100) := by
  constructor
  · intro signals
    refine ⟨?_, ?_, ?_⟩
    · intro htw
      have hne : efdTotalWeight signals ≠ 0 := ne_of_gt htw
      constructor
      · rw [computeFocusScore, if_pos htw]
        have e1 : ((efdAvailable signals).map fun k =>
              efdWeight k / efdTotalWeight signals * (signals k).getD 0) =
            ((efdAvailable signals).map fun k =>
              (efdWeight k * (signals k).getD 0) *
                (efdTotalWeight signals)⁻¹) :=
          List.map_congr_left fun k _ => by
            rw [div_eq_mul_inv]; ring
        rw [e1, List.sum_map_mul_right, div_eq_mul_inv]
        ring
      · have e2 : ((efdAvailable signals).map fun k =>
              efdWeight k / efdTotalWeight signals) =
            ((efdAvailable signals).map fun k =>
              efdWeight k * (efdTotalWeight signals)⁻¹) :=
          List.map_congr_left fun k _ => by rw [div_eq_mul_inv]
        rw [e2, List.sum_map_mul_right]
        have : ((efdAvailable signals).map fun k => efdWeight k).sum =
            efdTotalWeight signals := rfl
        rw [this, mul_inv_cancel₀ hne]
    · intro hnone
      have hav : efdAvailable signals = [] := by
        simp [efdAvailable, efdSignalKinds, hnone]
      rw [computeFocusScore, efdTotalWeight, hav]
      norm_num
    · intro hb
      have hvals := efdAvailable_value_bounds signals hb
      have hS0 : 0 ≤ ((efdAvailable signals).map fun k =>
          efdWeight k * (signals k).getD 0).sum := by
        apply List.sum_nonneg
        intro x hx
        obtain ⟨k, hk, rfl⟩ := List.mem_map.mp hx
        exact mul_nonneg (efdWeight_nonneg k) (hvals k hk).1
      have hStw : ((efdAvailable signals).map fun k =>
            efdWeight k * (signals k).getD 0).sum ≤
          efdTotalWeight signals := by
        apply List.sum_le_sum
        intro k hk
        calc efdWeight k * (signals k).getD 0 ≤ efdWeight k * 1 :=
              mul_le_mul_of_nonneg_left (hvals k hk).2 (efdWeight_nonneg k)
          _ = efdWeight k := mul_one _
      by_cases htw : 0 < efdTotalWeight signals
      · rw [computeFocusScore, if_pos htw]
        constructor
        · exact mul_nonneg (div_nonneg hS0 htw.le) (by norm_num)
        · have h1 : ((efdAvailable signals).map fun k =>
                efdWeight k * (signals k).getD 0).sum /
              efdTotalWeight signals ≤ 1 := (div_le_one htw).mpr hStw
          calc ((efdAvailable signals).map fun k =>
                efdWeight k * (signals k).getD 0).sum /
              efdTotalWeight signals * 100 ≤ 1 * 100 := by
                exact mul_le_mul_of_nonneg_right h1 (by norm_num)
            _ = 100 := one_mul _
      · rw [computeFocusScore, if_neg htw]
        norm_num
  · intro signals h
    have hc := h .camera
    have hm := h .microphone
    have hk := h .keyboard
    have hmo := h .mouse
    have hw := h .window
    have hcpu := h .cpu
    simp only [computeAttentionScore, amSignalKinds, amWeight,
      List.map_cons, List.map_nil, List.sum_cons, List.sum_nil]
    constructor
    · nlinarith [hc.1, hm.1, hk.1, hmo.1, hw.1, hcpu.1]
    · nlinarith [hc.2, hm.2, hk.2, hmo.2, hw.2, hcpu.2]

/-- Witness for the amended C6: the enhanced detector's default
configuration (camera off, so pose and gaze absent) with keyboard 0.7,
mouse 0.6, window 0.8, cpu 0.7 lies in [0,100]; the all-absent map gives
the neutral 50; and the attention monitor's all-neutral input lies in
[0,100]. -/
theorem fusion_renormalization_witness :
    (0 ≤ computeFocusScore (fun k => match k with
        | .keyboard => some (7/10)
        | .mouse => some (6/10)
        | .window => some (8/10)
        | .cpu => some (7/10)
        | .pose => none
        | .gaze => none) ∧
      computeFocusScore (fun k => match k with
        | .keyboard => some (7/10)
        | .mouse => some (6/10)
        | .window => some (8/10)
        | .cpu => some (7/10)
        | .pose => none
        | .gaze => none) ≤ 100) ∧
    computeFocusScore (fun _ => none) = 50 ∧
    (0 ≤ computeAttentionScore (fun _ => 1/2) ∧
      computeAttentionScore (fun _ => 1/2) ≤ 100) :=
  ⟨(fusion_renormalization.1 _).2.2 (by
      intro k v hv
      cases k <;> simp_all <;> constructor <;> linarith),
    (fusion_renormalization.1 _).2.1 fun _ => rfl,
    fusion_renormalization.2 _ (by intro k; constructor <;> norm_num)⟩

/-! ## Block access manager (`rfai/ai/block_access_manager.py`)

The sqlite lookups `_get_active_session_id` / `_get_session_attention`
become explicit inputs: whether an open session row exists for the current
block, and the `AVG(score)` over `attention_log` (which is on a 0-100
scale, or `NULL` — `none` — when there are no rows). -/

/-- Python's lexicographic string comparison `a <= b`, used for the
`start <= current_time <= end` window test on "HH:MM" strings. -/
def charListLe : List Char → List Char → Bool
  | [], _ => true
  | _ :: _, [] => false
  | a :: as, b :: bs =>
    if a < b then true else if b < a then false else charListLe as bs

/-- `a <= b` on strings, as Python compares "HH:MM" literals. -/
def strLe (a b : String) : Bool := charListLe a.toList b.toList

/-- Python's substring test `needle in hay`. -/
def strContains (hay needle : String) : Bool :=
  decide (needle.toList <:+: hay.toList)

/-- One entry of `daily_schedule.time_blocks` in `interests.json`. -/
structure ScheduleBlock where
  name : String
  startTime : String
  endTime : String
  contentType : String
  deriving DecidableEq, Repr

/-- The parts of the loaded `interests.json` the access manager reads:
the block list and `daily_schedule.attentiveness_threshold` (0.7 when the
key is absent, per the `.get(..., 0.7)` defaults). -/
structure AccessConfig where
  timeBlocks : List ScheduleBlock
  attentivenessThreshold : ℚ
  deriving DecidableEq, Repr

/-- `BlockAccessManager._get_current_block` (block_access_manager.py lines
53-70): the first configured block whose `[start_time, end_time]` range
contains the current "HH:MM" string. -/
def getCurrentBlock (config : AccessConfig) (now : String) :
    Option ScheduleBlock :=
  config.timeBlocks.find? fun b => strLe b.startTime now && strLe now b.endTime

/-- The full free-access list used when nothing restricts content. -/
def freeAccessTypes : List String :=
  ["youtube_self_help", "youtube_science", "papers", "movies"]

/-- `BlockAccessManager._get_allowed_content_types`
(block_access_manager.py lines 178-192). -/
def allowedContentTypes (currentBlock : Option ScheduleBlock) : List String :=
  match currentBlock with
  | none => freeAccessTypes
  | some b =>
    if strContains b.contentType "science" then ["youtube_science", "papers"]
    else if strContains b.contentType "self_help" then ["youtube_self_help"]
    else if strContains b.contentType "movie" then ["movies"]
    else ["youtube_science", "youtube_self_help", "papers", "movies"]

/-- Python truthiness of the attention average (`if attention_avg`):
`None` and `0` are falsy. -/
def ratTruthy (a : Option ℚ) : Bool :=
  match a with
  | none => false
  | some v => decide (v ≠ 0)

/-- Python's `int()` truncation toward zero on a float, for the rationals
that stand in for them. -/
def ratTrunc (q : ℚ) : ℤ := if 0 ≤ q then ⌊q⌋ else ⌈q⌉

/-- The f-string
`f"Attentiveness goal not met ({int(attention_avg or 0)}% / {int(threshold * 100)}%)"`
(block_access_manager.py line 91). -/
def lockReasonString (attentionAvg : Option ℚ) (threshold : ℚ) : String :=
  "Attentiveness goal not met (" ++ toString (ratTrunc (attentionAvg.getD 0))
    ++ "% / " ++ toString (ratTrunc (threshold * 100)) ++ "%)"

/-- The dict returned by `get_access_status` (the fields every caller
reads; `lockReason = none` models the `None` the code stores when not
locked, and `blockName`/`goalMet` are `none` when their key is absent). -/
structure AccessStatus where
  hasActiveBlock : Bool
  blockName : Option String
  blockType : Option String
  locked : Bool
  lockReason : Option String
  allowedContentTypes : List String
  goalMet : Option Bool
  deriving DecidableEq, Repr

/-- `BlockAccessManager.get_access_status` (block_access_manager.py lines
72-128).  `activeSessionExists` is `_get_active_session_id() is not None`;
`attentionAvg` is `_get_session_attention` on the 0-100 scale.  With an
active block and an open session, `goal_met = attention_avg >=
threshold*100 if attention_avg else False` and the status is locked iff
the goal is not met; with a block but no session, or with no block, the
status is unlocked. -/
def getAccessStatus (config : AccessConfig) (now : String)
    (activeSessionExists : Bool) (attentionAvg : Option ℚ) : AccessStatus :=
  match getCurrentBlock config now with
  | some block =>
    if activeSessionExists then
      let threshold := config.attentivenessThreshold
      let goalMet := if ratTruthy attentionAvg then
          decide (attentionAvg.getD 0 ≥ threshold * 100)
        else false
      let locked := !goalMet
      { hasActiveBlock := true
        blockName := some block.name
        blockType := some block.contentType
        locked := locked
        lockReason := if locked then
            some (lockReasonString attentionAvg threshold)
          else none
        allowedContentTypes := allowedContentTypes (some block)
        goalMet := some goalMet }
    else
      { hasActiveBlock := true
        blockName := some block.name
        blockType := some block.contentType
        locked := false
        lockReason := none
        allowedContentTypes := allowedContentTypes (some block)
        goalMet := none }
  | none =>
    { hasActiveBlock := false
      blockName := none
      blockType := none
      locked := false
      lockReason := none
      allowedContentTypes := freeAccessTypes
      goalMet := none }

/-- `BlockAccessManager.can_access_content` (block_access_manager.py lines
216-232): `False` whenever the status is locked, else membership of the
requested type in the allowed list. -/
def canAccessContent (config : AccessConfig) (now : String)
    (activeSessionExists : Bool) (attentionAvg : Option ℚ)
    (contentType : String) : Bool :=
  let status := getAccessStatus config now activeSessionExists attentionAvg
  if status.locked then false
  else decide (contentType ∈ status.allowedContentTypes)

/-- The dict returned by `get_block_progress` when the session row is
found. -/
structure BlockProgress where
  goalDurationMinutes : Nat
  elapsedMinutes : ℤ
  progressPercent : ℤ
  averageAttention : ℤ
  attentionThreshold : ℤ
  attentionMet : Bool
  canEndSession : Bool
  deriving DecidableEq, Repr

/-- `BlockAccessManager.get_block_progress` (block_access_manager.py lines
262-311) for a found session row: times in minutes, `attentionAvg` the
0-100 scale `AVG(score)` (or `none`), `threshold` the configured 0-1
threshold.  `can_end_session = attention_met or (elapsed_minutes >=
goal_minutes * 1.5)`. -/
def getBlockProgress (goalMinutes : Nat) (startTime now : ℚ)
    (attentionAvg : Option ℚ) (threshold : ℚ) : BlockProgress :=
  let elapsed := now - startTime
  let avg := attentionAvg.getD 0
  let attentionMet := decide (avg / 100 ≥ threshold)
  { goalDurationMinutes := goalMinutes
    elapsedMinutes := ratTrunc elapsed
    progressPercent := if goalMinutes ≠ 0 then
        min 100 (ratTrunc (elapsed / (goalMinutes : ℚ) * 100))
      else 0
    averageAttention := ratTrunc avg
    attentionThreshold := ratTrunc (threshold * 100)
    attentionMet := attentionMet
    canEndSession := attentionMet ||
      decide (elapsed ≥ (goalMinutes : ℚ) * (3/2)) }

/-! ### Theorems about the access gate -/

/-- A one-block schedule used as concrete input: "Science Block" from
09:00 to 10:00 with content type `science_youtube_and_papers`, threshold
0.7. -/
def scienceConfig : AccessConfig :=
  ⟨[⟨"Science Block", "09:00", "10:00", "science_youtube_and_papers"⟩], 7/10⟩

/-- Helper: at 09:30 the science block is the current block. -/
theorem scienceConfig_block_0930 :
    getCurrentBlock scienceConfig "09:30" =
      some ⟨"Science Block", "09:00", "10:00",
        "science_youtube_and_papers"⟩ := by
  decide

/-- Helper: with an open session whose average attention is 50 (below the
70 required), the status during the science block is locked. -/
theorem scienceLocked_at_50 :
    (getAccessStatus scienceConfig "09:30" true (some 50)).locked = true := by
  simp only [getAccessStatus, scienceConfig_block_0930]
  norm_num [ratTruthy, scienceConfig]

/-- C7: once elapsed time reaches 1.5 times the goal duration,
`get_block_progress` reports `can_end_session = true` for every attention
average, met or not. -/
theorem canEnd_at_forceEnd_threshold (goalMinutes : Nat) (startTime now : ℚ)
    (attentionAvg : Option ℚ) (threshold : ℚ)
    (h : now - startTime ≥ (goalMinutes : ℚ) * (3/2)) :
    (getBlockProgress goalMinutes startTime now attentionAvg
      threshold).canEndSession = true := by
  simp only [getBlockProgress, Bool.or_eq_true, decide_eq_true_eq]
  exact Or.inr h

/-- Witness for C7: a 60-minute goal checked at 90 minutes with average
attention 30 (threshold 0.7 unmet) can still end. -/
theorem canEnd_at_forceEnd_threshold_witness :
    (getBlockProgress 60 0 90 (some 30) (7/10)).canEndSession = true ∧
    (getBlockProgress 60 0 90 (some 30) (7/10)).attentionMet = false :=
  ⟨canEnd_at_forceEnd_threshold 60 0 90 (some 30) (7/10) (by norm_num),
    by simp only [getBlockProgress, decide_eq_false_iff_not]; norm_num⟩

/-- C8: when no schedule block's range contains the current time — in
particular with an empty schedule — `can_access_content` allows every
content category of the system. -/
theorem noBlock_allows_all (config : AccessConfig) (now : String)
    (sess : Bool) (avg : Option ℚ) (ct : String)
    (hno : getCurrentBlock config now = none) (hct : ct ∈ freeAccessTypes) :
    canAccessContent config now sess avg ct = true := by
  simp [canAccessContent, getAccessStatus, hno, hct]

/-- Witness for C8: an empty schedule allows "movies" at noon. -/
theorem noBlock_allows_all_witness :
    canAccessContent ⟨[], 7/10⟩ "12:00" false none "movies" = true :=
  noBlock_allows_all ⟨[], 7/10⟩ "12:00" false none "movies" rfl (by decide)

/-- Counterexample for C4: during the active science block with an open
session whose attention average 50 is below the 70 required, the status is
locked and `can_access_content` denies `youtube_science` even though it
matches the block's own category (it is in the block's allowed list). -/
theorem lockedBlock_denies_matching :
    "youtube_science" ∈ (getAccessStatus scienceConfig "09:30" true
      (some 50)).allowedContentTypes ∧
    (getAccessStatus scienceConfig "09:30" true (some 50)).locked = true ∧
    canAccessContent scienceConfig "09:30" true (some 50)
      "youtube_science" = false := by
  refine ⟨by decide, scienceLocked_at_50, ?_⟩
  simp [canAccessContent, scienceLocked_at_50]

/-- C4 amended: the matching category is allowed only when the
attentiveness lock is not engaged — if a block is active, the requested
type is in the block's allowed list, and the status is not locked (no open
session, or the session's attention goal met), then access is granted;
while the lock is engaged even the matching category is denied. -/
theorem matching_category_allowed_unless_locked (config : AccessConfig)
    (now : String) (sess : Bool) (avg : Option ℚ) (ct : String)
    (b : ScheduleBlock) (hb : getCurrentBlock config now = some b)
    (hct : ct ∈ allowedContentTypes (some b))
    (hun : (getAccessStatus config now sess avg).locked = false) :
    canAccessContent config now sess avg ct = true := by
  have hall : (getAccessStatus config now sess avg).allowedContentTypes =
      allowedContentTypes (some b) := by
    simp only [getAccessStatus, hb]
    cases sess <;> simp
  simp [canAccessContent, hun, hall, hct]

/-- Witness for the amended C4: with the science block active and no open
session, the matching `youtube_science` is allowed. -/
theorem matching_category_allowed_unless_locked_witness :
    canAccessContent scienceConfig "09:30" false none
      "youtube_science" = true :=
  matching_category_allowed_unless_locked scienceConfig "09:30" false none
    "youtube_science"
    ⟨"Science Block", "09:00", "10:00", "science_youtube_and_papers"⟩
    scienceConfig_block_0930 (by decide) (by decide)

/-- Counterexample for C9: in the locked status the `lock_reason` string is
"Attentiveness goal not met (50% / 70%)", which does not contain the
active block's name "Science Block" as a substring. -/
theorem lockReason_lacks_blockName :
    (getAccessStatus scienceConfig "09:30" true (some 50)).locked = true ∧
    (getAccessStatus scienceConfig "09:30" true (some 50)).lockReason =
      some "Attentiveness goal not met (50% / 70%)" ∧
    ¬ ("Science Block".toList <:+:
      "Attentiveness goal not met (50% / 70%)".toList) := by
  refine ⟨scienceLocked_at_50, ?_, by decide⟩
  have h1 : ratTrunc ((some (50:ℚ)).getD 0) = 50 := by norm_num [ratTrunc]
  have h2 : ratTrunc ((7:ℚ)/10 * 100) = 70 := by norm_num [ratTrunc]
  have hs : lockReasonString (some 50) (7/10) =
      "Attentiveness goal not met (50% / 70%)" := by
    unfold lockReasonString
    rw [h1, h2]
    rfl
  simp only [getAccessStatus, scienceConfig_block_0930]
  norm_num [ratTruthy, scienceConfig, hs]

/-- C9 amended: whenever the gate denies access, the active block is
surfaced to the caller — but in the separate `block_name` field of the
status dict (together with `has_active_block = true`), not inside the
`lock_reason` string, which only reports the unmet attentiveness
percentages. -/
theorem denial_names_block_in_field (config : AccessConfig) (now : String)
    (sess : Bool) (avg : Option ℚ)
    (hlock : (getAccessStatus config now sess avg).locked = true) :
    ∃ b, getCurrentBlock config now = some b ∧
      (getAccessStatus config now sess avg).blockName = some b.name ∧
      (getAccessStatus config now sess avg).hasActiveBlock = true := by
  cases hb : getCurrentBlock config now with
  | none =>
    have hfalse : (getAccessStatus config now sess avg).locked = false := by
      simp only [getAccessStatus, hb]
    rw [hfalse] at hlock
    exact Bool.noConfusion hlock
  | some b =>
    refine ⟨b, rfl, ?_, ?_⟩ <;>
    · simp only [getAccessStatus, hb]
      cases sess <;> simp

/-- Witness for the amended C9: the locked science-block status carries
`block_name = "Science Block"`. -/
theorem denial_names_block_in_field_witness :
    ∃ b, getCurrentBlock scienceConfig "09:30" = some b ∧
      (getAccessStatus scienceConfig "09:30" true
        (some 50)).blockName = some b.name ∧
      (getAccessStatus scienceConfig "09:30" true
        (some 50)).hasActiveBlock = true :=
  denial_names_block_in_field scienceConfig "09:30" true (some 50)
    scienceLocked_at_50

end RFAI
